import Mathlib

/-!
Shallow embedding of the vote-tracking frontend client state store and
stage orchestration logic (React context `AppContext.tsx`, the Home page
orchestrators in `page.tsx`, `PdfUploadSection`, and `AnalysisSection`).

State mutations are modelled as pure functions `AppState → AppState`;
an orchestrator invocation is a function of the pre-state and an oracle
`FetchOutcome` describing what the single awaited network call returned,
producing the list of successive states (one per `setState`-style call).
`unknown`-typed JSON payloads (attendees, vote patterns, law analysis)
are modelled as opaque strings.
-/

namespace VoteTracking

/-- Status enum for stages 1–3: idle / processing / complete / error. -/
inductive StepStatus where
  | idle
  | processing
  | complete
  | error
deriving DecidableEq, Repr

/-- Status for step 0 (rubric entry): idle / complete. -/
inductive Step0Status where
  | idle
  | complete
deriving DecidableEq, Repr

/-- The stage index (1, 2 or 3) accepted by `setStepStatus`. -/
inductive StageIdx where
  | one
  | two
  | three
deriving DecidableEq, Repr

/-- The slice of a browser `File` object the code reads: `name` and MIME `type`. -/
structure FileMeta where
  name : String
  type : String
deriving DecidableEq, Repr

/-- One per-page OCR entry: `{page, response?, error?}`. -/
structure OcrPage where
  page : Nat
  response : Option String := none
  error : Option String := none
deriving DecidableEq, Repr

/-- The nested `ocrResults` object: `{totalPages, results}`. -/
structure OcrResults where
  totalPages : Nat
  results : List OcrPage
deriving DecidableEq, Repr

/-- The per-file result record (`PdfResult` in `AppContext.tsx`).
Optional fields are `Option`s; absent (`undefined`) is `none`. -/
structure PdfResult where
  filename : String
  success : Bool
  totalPages : Option Nat := none
  ocrResults : Option OcrResults := none
  extractedText : Option String := none
  attendees : Option String := none
  votePatterns : Option String := none
  lawAnalysis : Option String := none
  processingTimeMs : Option Nat := none
  attendeesError : Option String := none
  votePatternsError : Option String := none
  lawAnalysisError : Option String := none
  error : Option String := none
deriving DecidableEq, Repr

/-- The shared client state (`AppState` in `AppContext.tsx`).
`currentStep` is a raw number: modelled as `Int`, no range restriction. -/
structure AppState where
  apiKey : String
  files : List FileMeta
  results : List PdfResult
  rubric : String
  currentStep : Int
  step0Status : Step0Status
  step1Status : StepStatus
  step2Status : StepStatus
  step3Status : StepStatus
deriving DecidableEq, Repr

/-- `initialState` from `AppContext.tsx`. -/
def initialState : AppState :=
  { apiKey := ""
    files := []
    results := []
    rubric := ""
    currentStep := 1
    step0Status := .idle
    step1Status := .idle
    step2Status := .idle
    step3Status := .idle }

/-- `setCurrentStep`: no-op when the step is unchanged (returns the previous
state object), otherwise stores the given number unvalidated. -/
def setCurrentStep (s : AppState) (step : Int) : AppState :=
  if s.currentStep = step then s else { s with currentStep := step }

/-- `setApiKey`. -/
def setApiKey (s : AppState) (key : String) : AppState :=
  { s with apiKey := key }

/-- `setFiles`. -/
def setFiles (s : AppState) (files : List FileMeta) : AppState :=
  { s with files := files }

/-- `setResults`. -/
def setResults (s : AppState) (results : List PdfResult) : AppState :=
  { s with results := results }

/-- `setRubric`: also derives `step0Status` from `rubric.trim()` truthiness. -/
def setRubric (s : AppState) (rubric : String) : AppState :=
  { s with
    rubric := rubric
    step0Status := if rubric.trim ≠ "" then .complete else .idle }

/-- `setStepStatus(step, status)` for `step ∈ {1,2,3}`. -/
def setStepStatus (s : AppState) : StageIdx → StepStatus → AppState
  | .one, st => { s with step1Status := st }
  | .two, st => { s with step2Status := st }
  | .three, st => { s with step3Status := st }

/-- `clearData`: resets files, results, rubric and all statuses, keeping
`apiKey` and `currentStep` from the previous state. -/
def clearData (s : AppState) : AppState :=
  { s with
    files := []
    results := []
    rubric := ""
    step0Status := .idle
    step1Status := .idle
    step2Status := .idle
    step3Status := .idle }

/-- Projection of the status slice selected by a `StageIdx`. -/
def stageStatus (s : AppState) : StageIdx → StepStatus
  | .one => s.step1Status
  | .two => s.step2Status
  | .three => s.step3Status

/-- JavaScript truthiness of a `string | undefined` value:
truthy iff present and non-empty. -/
def strTruthy : Option String → Bool
  | none => false
  | some s => !s.isEmpty

/-- A `{filename, text}` request pair sent to the batch endpoints. -/
structure Entry where
  filename : String
  text : String
deriving DecidableEq, Repr

/-- `results.filter(r => r.success && r.extractedText).map(r =>
(r to filename/text pairs)` — the entry list
built by the stage-2/stage-3/analysis orchestrators. -/
def batchEntries (results : List PdfResult) : List Entry :=
  (results.filter fun r => r.success && strTruthy r.extractedText).map
    fun r => { filename := r.filename, text := r.extractedText.getD "" }

/-- Response entry of `/extract-attendees-batch`:
`{filename, success, attendees?, error?}`. -/
structure AttendeeEntry where
  filename : String
  success : Bool
  attendees : Option String := none
  error : Option String := none
deriving DecidableEq, Repr

/-- Response entry of `/extract-vote-patterns-batch`:
`{filename, success, vote_patterns?, error?}`. -/
structure VoteEntry where
  filename : String
  success : Bool
  vote_patterns : Option String := none
  error : Option String := none
deriving DecidableEq, Repr

/-- Response entry of `/analyze-laws-batch`:
`{filename, success, law_analysis?, error?}`. -/
structure LawEntry where
  filename : String
  success : Bool
  law_analysis : Option String := none
  error : Option String := none
deriving DecidableEq, Repr

/-- Response entry of `/process-pdfs`:
`{filename, success, total_pages?, ocr_results?, extracted_text?, error?}`. -/
structure OcrEntry where
  filename : String
  success : Bool
  total_pages : Option Nat := none
  ocr_results : Option OcrResults := none
  extracted_text : Option String := none
  error : Option String := none
deriving DecidableEq, Repr

/-- The per-record step of the stage-2 merge (`handleStep2Process`):
find the response entry whose filename matches, then either merge
`attendees` (entry succeeded) or `attendeesError` (entry failed), or
return the record unchanged when no entry matches. -/
def attendeeMergeOne (resp : List AttendeeEntry) (r : PdfResult) : PdfResult :=
  match resp.find? fun m => m.filename == r.filename with
  | some m =>
      if m.success then { r with attendees := m.attendees }
      else { r with attendeesError := m.error }
  | none => r

/-- `state.results.map(...)` of `handleStep2Process` (attendee merge). -/
def mergeAttendees (results : List PdfResult) (resp : List AttendeeEntry) :
    List PdfResult :=
  results.map (attendeeMergeOne resp)

/-- The per-record step of the stage-3 merge (`handleStep3Process`). -/
def voteMergeOne (resp : List VoteEntry) (r : PdfResult) : PdfResult :=
  match resp.find? fun m => m.filename == r.filename with
  | some m =>
      if m.success then { r with votePatterns := m.vote_patterns }
      else { r with votePatternsError := m.error }
  | none => r

/-- `state.results.map(...)` of `handleStep3Process` (vote-pattern merge). -/
def mergeVotePatterns (results : List PdfResult) (resp : List VoteEntry) :
    List PdfResult :=
  results.map (voteMergeOne resp)

/-- The per-record step of the law-analysis merge
(`AnalysisSection.handleAnalysisProcess`). -/
def lawMergeOne (resp : List LawEntry) (r : PdfResult) : PdfResult :=
  match resp.find? fun m => m.filename == r.filename with
  | some m =>
      if m.success then { r with lawAnalysis := m.law_analysis }
      else { r with lawAnalysisError := m.error }
  | none => r

/-- `state.results.map(...)` of `handleAnalysisProcess` (law merge). -/
def mergeLaw (results : List PdfResult) (resp : List LawEntry) :
    List PdfResult :=
  results.map (lawMergeOne resp)

/-- `{...result, totalPages: result.total_pages, ocrResults: result.ocr_results,
extractedText: result.extracted_text}` — conversion of one `/process-pdfs`
response entry into a result record (`handleStep1Process`). -/
def ocrEntryToResult (e : OcrEntry) : PdfResult :=
  { filename := e.filename
    success := e.success
    totalPages := e.total_pages
    ocrResults := e.ocr_results
    extractedText := e.extracted_text
    error := e.error }

/-- `data.results.map(...)` of `handleStep1Process`: the stored result list
is replaced wholesale by the converted response entries. -/
def mergeOcr (resp : List OcrEntry) : List PdfResult :=
  resp.map ocrEntryToResult

/-- The catch-block extra merge of `handleAnalysisProcess`: mark every
advanceable record with the error message as `lawAnalysisError`. -/
def lawErrorMark (results : List PdfResult) (msg : String) : List PdfResult :=
  results.map fun r =>
    if r.success && strTruthy r.extractedText then
      { r with lawAnalysisError := some msg }
    else r

/-- The Home page component view: shared app state plus the
component-local `selectedFiles` and `error` message. -/
structure HomeState where
  app : AppState
  selectedFiles : List FileMeta
  errMsg : String
deriving DecidableEq, Repr

/-- `handleFileChange` (`PdfUploadSection` / Home page): filter the incoming
file list to `application/pdf`; any non-PDF file aborts with the validation
error (no other state is touched); otherwise store the selection and
initialize one result record per file. -/
def handleFileChange (h : HomeState) (evFiles : List FileMeta) : HomeState :=
  let pdfFiles := evFiles.filter fun f => f.type == "application/pdf"
  if pdfFiles.length ≠ evFiles.length then
    { h with errMsg := "Only PDF files are allowed" }
  else
    let initialResults : List PdfResult := pdfFiles.map fun f =>
      { filename := f.name, success := false, extractedText := some "" }
    { app := setResults (setFiles h.app pdfFiles) initialResults
      selectedFiles := pdfFiles
      errMsg := "" }

/-- Oracle for the single awaited `fetch` of an orchestrator invocation:
the fetch (or body parsing) threw, the response was non-2xx with a
`{detail}` body, or it was 2xx with parsed data. -/
inductive FetchOutcome (α : Type) where
  | netError (msg : String)
  | httpError (detail : Option String)
  | ok (data : α)
deriving DecidableEq, Repr

/-- `errorData.detail || fallback`. -/
def detailOr (fallback : String) : Option String → String
  | some d => if d.isEmpty then fallback else d
  | none => fallback

/-- Outcome of one handler invocation: the successive states produced by
its state mutations (in order), and whether a network request was issued
(together with the entry list it carried, when it was a batch-entry call). -/
structure RunResult where
  trace : List HomeState
  fetched : Bool
  sentEntries : Option (List Entry) := none
deriving DecidableEq, Repr

/-- Final state of a run (the state after the last mutation, or the
pre-state when the handler mutated nothing). -/
def RunResult.final (h : HomeState) (r : RunResult) : HomeState :=
  r.trace.getLastD h

/-- `handleStep1Process`: validate api key and selection, set stage 1 to
`processing`, clear the error, await `/process-pdfs`, then on success
replace the results by the converted response and mark `complete`; on any
thrown error surface the message and mark `error`. -/
def handleStep1Process (h : HomeState) (fr : FetchOutcome (List OcrEntry)) :
    RunResult :=
  if h.app.apiKey == "" then
    { trace := [{ h with errMsg := "Please enter your API key" }], fetched := false }
  else if h.selectedFiles.length == 0 then
    { trace := [{ h with errMsg := "Please select at least one PDF file" }]
      fetched := false }
  else
    let h1 := { h with app := setStepStatus h.app .one .processing }
    let h2 := { h1 with errMsg := "" }
    match fr with
    | .ok data =>
        let h3 := { h2 with app := setResults h2.app (mergeOcr data) }
        let h4 := { h3 with app := setStepStatus h3.app .one .complete }
        { trace := [h1, h2, h3, h4], fetched := true }
    | .httpError detail =>
        let h3 := { h2 with errMsg := detailOr "Failed to process PDFs" detail }
        let h4 := { h3 with app := setStepStatus h3.app .one .error }
        { trace := [h1, h2, h3, h4], fetched := true }
    | .netError msg =>
        let h3 := { h2 with errMsg := msg }
        let h4 := { h3 with app := setStepStatus h3.app .one .error }
        { trace := [h1, h2, h3, h4], fetched := true }

/-- `handleStep2Process`: validate api key, set stage 2 to `processing`,
clear the error, send the advanceable entries to `/extract-attendees-batch`,
then merge by filename and mark `complete`, or surface the thrown error and
mark `error`. -/
def handleStep2Process (h : HomeState) (fr : FetchOutcome (List AttendeeEntry)) :
    RunResult :=
  if h.app.apiKey == "" then
    { trace := [{ h with errMsg := "Please enter your API key" }], fetched := false }
  else
    let h1 := { h with app := setStepStatus h.app .two .processing }
    let h2 := { h1 with errMsg := "" }
    let entries := batchEntries h.app.results
    match fr with
    | .ok data =>
        let h3 := { h2 with app := setResults h2.app (mergeAttendees h.app.results data) }
        let h4 := { h3 with app := setStepStatus h3.app .two .complete }
        { trace := [h1, h2, h3, h4], fetched := true, sentEntries := some entries }
    | .httpError detail =>
        let h3 := { h2 with errMsg := detailOr "Failed to extract attendees" detail }
        let h4 := { h3 with app := setStepStatus h3.app .two .error }
        { trace := [h1, h2, h3, h4], fetched := true, sentEntries := some entries }
    | .netError msg =>
        let h3 := { h2 with errMsg := msg }
        let h4 := { h3 with app := setStepStatus h3.app .two .error }
        { trace := [h1, h2, h3, h4], fetched := true, sentEntries := some entries }

/-- `handleStep3Process`: as stage 2, against `/extract-vote-patterns-batch`,
merging `votePatterns` / `votePatternsError` and driving `step3Status`. -/
def handleStep3Process (h : HomeState) (fr : FetchOutcome (List VoteEntry)) :
    RunResult :=
  if h.app.apiKey == "" then
    { trace := [{ h with errMsg := "Please enter your API key" }], fetched := false }
  else
    let h1 := { h with app := setStepStatus h.app .three .processing }
    let h2 := { h1 with errMsg := "" }
    let entries := batchEntries h.app.results
    match fr with
    | .ok data =>
        let h3 := { h2 with app := setResults h2.app (mergeVotePatterns h.app.results data) }
        let h4 := { h3 with app := setStepStatus h3.app .three .complete }
        { trace := [h1, h2, h3, h4], fetched := true, sentEntries := some entries }
    | .httpError detail =>
        let h3 := { h2 with errMsg := detailOr "Failed to extract vote patterns" detail }
        let h4 := { h3 with app := setStepStatus h3.app .three .error }
        { trace := [h1, h2, h3, h4], fetched := true, sentEntries := some entries }
    | .netError msg =>
        let h3 := { h2 with errMsg := msg }
        let h4 := { h3 with app := setStepStatus h3.app .three .error }
        { trace := [h1, h2, h3, h4], fetched := true, sentEntries := some entries }

/-- `AnalysisSection.handleAnalysisProcess`: validate api key, rubric and
the presence of advanceable records, set stage 2 to `processing`, send the
advanceable entries (plus rubric) to `/analyze-laws-batch`, merge by
filename and mark `complete`; on a thrown error surface the message, mark
`error`, and additionally stamp `lawAnalysisError` on every advanceable
record. -/
def handleAnalysisProcess (h : HomeState) (fr : FetchOutcome (List LawEntry)) :
    RunResult :=
  if h.app.apiKey == "" then
    { trace := [{ h with errMsg := "Please enter your API key" }], fetched := false }
  else if h.app.rubric.trim == "" then
    { trace := [{ h with errMsg := "Please enter a rubric in Step 0" }]
      fetched := false }
  else if (h.app.results.filter fun r => r.success && strTruthy r.extractedText).length == 0 then
    { trace := [{ h with errMsg := "Please complete OCR processing first (Step 1)" }]
      fetched := false }
  else
    let h1 := { h with app := setStepStatus h.app .two .processing }
    let h2 := { h1 with errMsg := "" }
    let entries := batchEntries h.app.results
    match fr with
    | .ok data =>
        let h3 := { h2 with app := setResults h2.app (mergeLaw h.app.results data) }
        let h4 := { h3 with app := setStepStatus h3.app .two .complete }
        { trace := [h1, h2, h3, h4], fetched := true, sentEntries := some entries }
    | .httpError detail =>
        let msg := detailOr "Failed to analyze laws" detail
        let h3 := { h2 with errMsg := msg }
        let h4 := { h3 with app := setStepStatus h3.app .two .error }
        let h5 := { h4 with app := setResults h4.app (lawErrorMark h.app.results msg) }
        { trace := [h1, h2, h3, h4, h5], fetched := true, sentEntries := some entries }
    | .netError msg =>
        let h3 := { h2 with errMsg := msg }
        let h4 := { h3 with app := setStepStatus h3.app .two .error }
        let h5 := { h4 with app := setResults h4.app (lawErrorMark h.app.results msg) }
        { trace := [h1, h2, h3, h4, h5], fetched := true, sentEntries := some entries }

/-- `handleTextEdit` on the extractedText field. -/
def handleTextEdit (h : HomeState) (filename value : String) : HomeState :=
  { h with
    app := setResults h.app (h.app.results.map fun r =>
      if r.filename == filename then { r with extractedText := some value } else r) }

/-- `handleClear`: reset the local selection, clear the shared data, clear
the error and jump back to step 1. -/
def handleClear (h : HomeState) : HomeState :=
  { app := setCurrentStep (clearData h.app) 1
    selectedFiles := []
    errMsg := "" }

/-- One user-triggered event on the modelled pages, with the network
oracle attached where the handler awaits a fetch. -/
inductive Event where
  | fileChange (files : List FileMeta)
  | step1 (fr : FetchOutcome (List OcrEntry))
  | step2 (fr : FetchOutcome (List AttendeeEntry))
  | step3 (fr : FetchOutcome (List VoteEntry))
  | analyze (fr : FetchOutcome (List LawEntry))
  | textEdit (filename value : String)
  | rubricChange (value : String)
  | apiKeyChange (key : String)
  | stepChange (n : Int)
  | clear
deriving DecidableEq, Repr

/-- Dispatch an event to its handler. -/
def eventRun (h : HomeState) : Event → RunResult
  | .fileChange fs => { trace := [handleFileChange h fs], fetched := false }
  | .step1 fr => handleStep1Process h fr
  | .step2 fr => handleStep2Process h fr
  | .step3 fr => handleStep3Process h fr
  | .analyze fr => handleAnalysisProcess h fr
  | .textEdit filename value => { trace := [handleTextEdit h filename value], fetched := false }
  | .rubricChange v => { trace := [{ h with app := setRubric h.app v }], fetched := false }
  | .apiKeyChange k => { trace := [{ h with app := setApiKey h.app k }], fetched := false }
  | .stepChange n => { trace := [{ h with app := setCurrentStep h.app n }], fetched := false }
  | .clear => { trace := [handleClear h], fetched := false }

/-- State after the last mutation of an event. -/
def eventFinal (h : HomeState) (e : Event) : HomeState :=
  (eventRun h e).final h

/-- Which stage status slice the orchestrator of an event drives, if any
(the law-analysis orchestrator drives the stage-2 status). -/
def invokesStage : Event → Option StageIdx
  | .step1 _ => some .one
  | .step2 _ => some .two
  | .step3 _ => some .three
  | .analyze _ => some .two
  | _ => none

/-! ## Helper lemmas -/

/-- A `string | undefined` value is truthy iff it is a present, non-empty
string. -/
theorem strTruthy_iff (o : Option String) :
    strTruthy o = true ↔ ∃ t, o = some t ∧ t ≠ "" := by
  cases o with
  | none => simp [strTruthy]
  | some s => simp [strTruthy, Bool.eq_false_iff, String.isEmpty_iff]

/-! ## Claims -/

/-- C8: for every prior state, the clear operation sets files to the empty
list, results to the empty list, rubric to the empty string, and all stage
statuses (step0 through step3) to idle, regardless of prior values. -/
theorem claim_C8 (s : AppState) :
    (clearData s).files = [] ∧ (clearData s).results = [] ∧
    (clearData s).rubric = "" ∧ (clearData s).step0Status = .idle ∧
    (clearData s).step1Status = .idle ∧ (clearData s).step2Status = .idle ∧
    (clearData s).step3Status = .idle := by
  simp [clearData]

/-- C10: for every prior state, the clear operation leaves `apiKey` and
`currentStep` unchanged, even though files, results, rubric and all stage
statuses are reset. -/
theorem claim_C10 (s : AppState) :
    (clearData s).apiKey = s.apiKey ∧
    (clearData s).currentStep = s.currentStep := by
  simp [clearData]

/-- C9: `setCurrentStep` with the current step is a no-op returning the
previous state unchanged; with a different number it stores exactly that
number with no range check (any number, also outside 1–3, is stored). -/
theorem claim_C9 (s : AppState) (n : Int) :
    (s.currentStep = n → setCurrentStep s n = s) ∧
    (s.currentStep ≠ n → setCurrentStep s n = { s with currentStep := n }) := by
  constructor <;> intro h <;> simp [setCurrentStep, h]

/-- Witness for C9 at concrete inputs (`n = 1` is a no-op on the initial
state; `n = -7`, far outside 1–3, is stored as given). -/
theorem claim_C9_witness :
    setCurrentStep initialState 1 = initialState ∧
    setCurrentStep initialState (-7) = { initialState with currentStep := -7 } :=
  ⟨(claim_C9 initialState 1).1 rfl, (claim_C9 initialState (-7)).2 (by decide)⟩

/-- C7: for every non-empty all-PDF selection, the initialized result list
is exactly one record per selected file, in order, carrying the file name,
`success = false` and empty extracted text — so its length equals the file
count. -/
theorem claim_C7 (h : HomeState) (evFiles : List FileMeta)
    (hne : evFiles ≠ [])
    (hall : ∀ f ∈ evFiles, f.type = "application/pdf") :
    (handleFileChange h evFiles).app.results =
      evFiles.map (fun f =>
        { filename := f.name, success := false, extractedText := some "" }) ∧
    (handleFileChange h evFiles).app.results.length = evFiles.length := by
  have hfilter : evFiles.filter (fun f => f.type == "application/pdf") = evFiles := by
    rw [List.filter_eq_self]
    intro f hf
    simpa using hall f hf
  have : handleFileChange h evFiles =
      { app := setResults (setFiles h.app evFiles)
          (evFiles.map fun f =>
            { filename := f.name, success := false, extractedText := some "" })
        selectedFiles := evFiles
        errMsg := "" } := by
    unfold handleFileChange
    simp [hfilter]
  rw [this]
  simp [setResults, setFiles]

/-- Witness for C7: two PDF files produce two initialized records. -/
theorem claim_C7_witness :
    (handleFileChange
        { app := initialState, selectedFiles := [], errMsg := "" }
        [{ name := "a.pdf", type := "application/pdf" },
         { name := "b.pdf", type := "application/pdf" }]).app.results =
      [{ filename := "a.pdf", success := false, extractedText := some "" },
       { filename := "b.pdf", success := false, extractedText := some "" }] ∧
    (handleFileChange
        { app := initialState, selectedFiles := [], errMsg := "" }
        [{ name := "a.pdf", type := "application/pdf" },
         { name := "b.pdf", type := "application/pdf" }]).app.results.length = 2 := by
  have h := claim_C7
    { app := initialState, selectedFiles := [], errMsg := "" }
    [{ name := "a.pdf", type := "application/pdf" },
     { name := "b.pdf", type := "application/pdf" }]
    (by decide) (by decide)
  exact ⟨h.1, h.2⟩

/-- C5: a stored record whose filename appears in no response entry is left
exactly unchanged by the attendee, vote-pattern and law-analysis merges —
pointwise, and at its position in the merged list (no removal, no
reconciliation, no missing-record error). -/
theorem claim_C5 (results : List PdfResult) (resp_a : List AttendeeEntry)
    (resp_v : List VoteEntry) (resp_l : List LawEntry) (r : PdfResult)
    (ha : ∀ m ∈ resp_a, m.filename ≠ r.filename)
    (hv : ∀ m ∈ resp_v, m.filename ≠ r.filename)
    (hl : ∀ m ∈ resp_l, m.filename ≠ r.filename) :
    attendeeMergeOne resp_a r = r ∧ voteMergeOne resp_v r = r ∧
    lawMergeOne resp_l r = r ∧
    ∀ i, results.get? i = some r →
      (mergeAttendees results resp_a).get? i = some r ∧
      (mergeVotePatterns results resp_v).get? i = some r ∧
      (mergeLaw results resp_l).get? i = some r := by
  have ha' : resp_a.find? (fun m => m.filename == r.filename) = none :=
    List.find?_eq_none.mpr (by intro m hm; simpa using ha m hm)
  have hv' : resp_v.find? (fun m => m.filename == r.filename) = none :=
    List.find?_eq_none.mpr (by intro m hm; simpa using hv m hm)
  have hl' : resp_l.find? (fun m => m.filename == r.filename) = none :=
    List.find?_eq_none.mpr (by intro m hm; simpa using hl m hm)
  have h1 : attendeeMergeOne resp_a r = r := by
    unfold attendeeMergeOne; rw [ha']
  have h2 : voteMergeOne resp_v r = r := by
    unfold voteMergeOne; rw [hv']
  have h3 : lawMergeOne resp_l r = r := by
    unfold lawMergeOne; rw [hl']
  refine ⟨h1, h2, h3, fun i hi => ⟨?_, ?_, ?_⟩⟩
  · rw [mergeAttendees, List.get?_map, hi]; simp [h1]
  · rw [mergeVotePatterns, List.get?_map, hi]; simp [h2]
  · rw [mergeLaw, List.get?_map, hi]; simp [h3]

/-- Witness for C5: a record named other.pdf is untouched by responses that
only mention a.pdf. -/
theorem claim_C5_witness :
    attendeeMergeOne [{ filename := "a.pdf", success := true }]
      { filename := "other.pdf", success := true } =
      { filename := "other.pdf", success := true } ∧
    (mergeAttendees [{ filename := "other.pdf", success := true }]
      [{ filename := "a.pdf", success := true }]).get? 0 =
      some { filename := "other.pdf", success := true } := by
  have h := claim_C5 [{ filename := "other.pdf", success := true }]
    [{ filename := "a.pdf", success := true }]
    [{ filename := "a.pdf", success := false }]
    [{ filename := "a.pdf", success := false }]
    { filename := "other.pdf", success := true }
    (by decide) (by decide) (by decide)
  exact ⟨h.1, (h.2.2.2 0 rfl).1⟩

/-- C6: the entry list sent by the attendee, vote-pattern and law-analysis
orchestrators contains exactly the filename/text pairs of the records with
`success` true and non-empty extracted text (the text being that record
extracted text); whenever one of those orchestrators issues its fetch, the
entries sent are precisely this list, so no failed or empty-text record is
ever included in a downstream request. -/
theorem claim_C6 :
    (∀ (results : List PdfResult) (e : Entry),
      e ∈ batchEntries results ↔
        ∃ r ∈ results, ∃ t, r.success = true ∧ r.extractedText = some t ∧
          t ≠ "" ∧ e = { filename := r.filename, text := t }) ∧
    (∀ (h : HomeState) (fr : FetchOutcome (List AttendeeEntry)),
      (handleStep2Process h fr).fetched = true →
      (handleStep2Process h fr).sentEntries = some (batchEntries h.app.results)) ∧
    (∀ (h : HomeState) (fr : FetchOutcome (List VoteEntry)),
      (handleStep3Process h fr).fetched = true →
      (handleStep3Process h fr).sentEntries = some (batchEntries h.app.results)) ∧
    (∀ (h : HomeState) (fr : FetchOutcome (List LawEntry)),
      (handleAnalysisProcess h fr).fetched = true →
      (handleAnalysisProcess h fr).sentEntries = some (batchEntries h.app.results)) := by
  refine ⟨?_, ?_, ?_, ?_⟩
  · intro results e
    simp only [batchEntries, List.mem_map, List.mem_filter, Bool.and_eq_true,
      strTruthy_iff]
    constructor
    · rintro ⟨r, ⟨hr, hs, t, ht, hne⟩, rfl⟩
      exact ⟨r, hr, t, hs, ht, hne, by simp [ht]⟩
    · rintro ⟨r, hr, t, hs, ht, hne, rfl⟩
      exact ⟨r, ⟨hr, hs, t, ht, hne⟩, by simp [ht]⟩
  · intro h fr
    unfold handleStep2Process
    split
    · simp
    · cases fr <;> simp
  · intro h fr
    unfold handleStep3Process
    split
    · simp
    · cases fr <;> simp
  · intro h fr
    unfold handleAnalysisProcess
    split
    · simp
    · split
      · simp
      · split
        · simp
        · cases fr <;> simp

/-- Witness for C6: on a mixed result list only the successful non-empty
record is packaged, and a stage-2 run that fetches sends exactly that. -/
theorem claim_C6_witness :
    ({ filename := "ok.pdf", text := "hello" } : Entry) ∈
      batchEntries
        [{ filename := "ok.pdf", success := true, extractedText := some "hello" },
         { filename := "bad.pdf", success := false, extractedText := some "x" },
         { filename := "empty.pdf", success := true, extractedText := some "" }] ∧
    (handleStep2Process
        { app := { initialState with apiKey := "k" }, selectedFiles := [], errMsg := "" }
        (.ok [])).sentEntries =
      some (batchEntries ({ initialState with apiKey := "k" } : AppState).results) := by
  constructor
  · exact (claim_C6.1 _ _).mpr
      ⟨{ filename := "ok.pdf", success := true, extractedText := some "hello" },
        by decide, "hello", rfl, rfl, by decide, rfl⟩
  · exact claim_C6.2.1
      { app := { initialState with apiKey := "k" }, selectedFiles := [], errMsg := "" }
      (.ok []) (by decide)

/-- The per-record attendee merge is idempotent for a fixed response. -/
theorem attendeeMergeOne_idem (resp : List AttendeeEntry) (r : PdfResult) :
    attendeeMergeOne resp (attendeeMergeOne resp r) = attendeeMergeOne resp r := by
  unfold attendeeMergeOne
  cases hfind : resp.find? (fun m => m.filename == r.filename) with
  | none => simp [hfind]
  | some m =>
    by_cases hs : m.success = true <;> simp [hfind, hs]

/-- The per-record vote-pattern merge is idempotent for a fixed response. -/
theorem voteMergeOne_idem (resp : List VoteEntry) (r : PdfResult) :
    voteMergeOne resp (voteMergeOne resp r) = voteMergeOne resp r := by
  unfold voteMergeOne
  cases hfind : resp.find? (fun m => m.filename == r.filename) with
  | none => simp [hfind]
  | some m =>
    by_cases hs : m.success = true <;> simp [hfind, hs]

/-- The per-record law-analysis merge is idempotent for a fixed response. -/
theorem lawMergeOne_idem (resp : List LawEntry) (r : PdfResult) :
    lawMergeOne resp (lawMergeOne resp r) = lawMergeOne resp r := by
  unfold lawMergeOne
  cases hfind : resp.find? (fun m => m.filename == r.filename) with
  | none => simp [hfind]
  | some m =>
    by_cases hs : m.success = true <;> simp [hfind, hs]

/-- C4: applying the filename-matched merge twice with the identical
response yields the same result list as applying it once, and neither
application changes the record count, for all three merge variants. -/
theorem claim_C4 (results : List PdfResult) (resp_a : List AttendeeEntry)
    (resp_v : List VoteEntry) (resp_l : List LawEntry) :
    mergeAttendees (mergeAttendees results resp_a) resp_a =
      mergeAttendees results resp_a ∧
    mergeVotePatterns (mergeVotePatterns results resp_v) resp_v =
      mergeVotePatterns results resp_v ∧
    mergeLaw (mergeLaw results resp_l) resp_l = mergeLaw results resp_l ∧
    (mergeAttendees results resp_a).length = results.length ∧
    (mergeVotePatterns results resp_v).length = results.length ∧
    (mergeLaw results resp_l).length = results.length := by
  refine ⟨?_, ?_, ?_, ?_, ?_, ?_⟩
  · simp only [mergeAttendees, List.map_map]
    exact List.map_congr_left fun r _ => attendeeMergeOne_idem resp_a r
  · simp only [mergeVotePatterns, List.map_map]
    exact List.map_congr_left fun r _ => voteMergeOne_idem resp_v r
  · simp only [mergeLaw, List.map_map]
    exact List.map_congr_left fun r _ => lawMergeOne_idem resp_l r
  · simp [mergeAttendees]
  · simp [mergeVotePatterns]
  · simp [mergeLaw]

/-- The two uploaded files of the worked example of claim C2. -/
def c2Files : List FileMeta :=
  [{ name := "minutes1.pdf", type := "application/pdf" },
   { name := "minutes2.pdf", type := "application/pdf" }]

/-- Pre-state of the worked example: api key entered, both PDFs selected
and their result records initialized. -/
def c2Home : HomeState :=
  handleFileChange
    { app := { initialState with apiKey := "k" }, selectedFiles := [], errMsg := "" }
    c2Files

/-- The mixed batch response of the worked example: the first file
succeeded with extracted text, the second failed with an OCR error. -/
def c2Resp : List OcrEntry :=
  [{ filename := "minutes1.pdf", success := true,
     extracted_text := some "Meeting minutes text" },
   { filename := "minutes2.pdf", success := false, error := some "OCR failed" }]

/-- C2: when a batch response mixes per-file success and failure, each
failing entry contributes only a field-level error string to the record
matched by filename, each succeeding entry contributes only its payload
field, the stage status still ends at complete, and in the worked OCR
example record 1 keeps its extracted text untouched by the failure of
record 2. -/
theorem claim_C2 :
    (∀ (results : List PdfResult) (resp : List AttendeeEntry)
        (i : Nat) (r : PdfResult) (m : AttendeeEntry),
      results.get? i = some r →
      resp.find? (fun x => x.filename == r.filename) = some m →
      (m.success = false →
        (mergeAttendees results resp).get? i =
          some { r with attendeesError := m.error }) ∧
      (m.success = true →
        (mergeAttendees results resp).get? i =
          some { r with attendees := m.attendees })) ∧
    (∀ (results : List PdfResult) (resp : List VoteEntry)
        (i : Nat) (r : PdfResult) (m : VoteEntry),
      results.get? i = some r →
      resp.find? (fun x => x.filename == r.filename) = some m →
      (m.success = false →
        (mergeVotePatterns results resp).get? i =
          some { r with votePatternsError := m.error }) ∧
      (m.success = true →
        (mergeVotePatterns results resp).get? i =
          some { r with votePatterns := m.vote_patterns })) ∧
    (∀ (h : HomeState) (data : List AttendeeEntry), h.app.apiKey ≠ "" →
      ((handleStep2Process h (.ok data)).final h).app.step2Status = .complete) ∧
    (∀ (h : HomeState) (data : List VoteEntry), h.app.apiKey ≠ "" →
      ((handleStep3Process h (.ok data)).final h).app.step3Status = .complete) ∧
    ((handleStep1Process c2Home (.ok c2Resp)).final c2Home).app.results =
      [{ filename := "minutes1.pdf", success := true,
         extractedText := some "Meeting minutes text" },
       { filename := "minutes2.pdf", success := false,
         error := some "OCR failed" }] ∧
    ((handleStep1Process c2Home (.ok c2Resp)).final c2Home).app.step1Status =
      .complete := by
  refine ⟨?_, ?_, ?_, ?_, ?_, ?_⟩
  · intro results resp i r m hi hm
    constructor <;> intro hs <;>
      · rw [mergeAttendees, List.get?_map, hi]
        simp [attendeeMergeOne, hm, hs]
  · intro results resp i r m hi hm
    constructor <;> intro hs <;>
      · rw [mergeVotePatterns, List.get?_map, hi]
        simp [voteMergeOne, hm, hs]
  · intro h data hk
    simp [handleStep2Process, hk, RunResult.final, setStepStatus, setResults]
  · intro h data hk
    simp [handleStep3Process, hk, RunResult.final, setStepStatus, setResults]
  · decide
  · decide

/-- Witness for C2: in the worked example, the failing attendee entry for
minutes2.pdf lands only in attendeesError of the matching record while the
succeeding sibling keeps its payload. -/
theorem claim_C2_witness :
    (mergeAttendees
        [{ filename := "minutes1.pdf", success := true, extractedText := some "t" },
         { filename := "minutes2.pdf", success := true, extractedText := some "u" }]
        [{ filename := "minutes1.pdf", success := true, attendees := some "Alice" },
         { filename := "minutes2.pdf", success := false, error := some "LLM failed" }]).get? 1 =
      some { filename := "minutes2.pdf", success := true, extractedText := some "u",
             attendeesError := some "LLM failed" } ∧
    (mergeAttendees
        [{ filename := "minutes1.pdf", success := true, extractedText := some "t" },
         { filename := "minutes2.pdf", success := true, extractedText := some "u" }]
        [{ filename := "minutes1.pdf", success := true, attendees := some "Alice" },
         { filename := "minutes2.pdf", success := false, error := some "LLM failed" }]).get? 0 =
      some { filename := "minutes1.pdf", success := true, extractedText := some "t",
             attendees := some "Alice" } := by
  constructor
  · exact ((claim_C2.1
      [{ filename := "minutes1.pdf", success := true, extractedText := some "t" },
       { filename := "minutes2.pdf", success := true, extractedText := some "u" }]
      [{ filename := "minutes1.pdf", success := true, attendees := some "Alice" },
       { filename := "minutes2.pdf", success := false, error := some "LLM failed" }] 1
      { filename := "minutes2.pdf", success := true, extractedText := some "u" }
      { filename := "minutes2.pdf", success := false, error := some "LLM failed" }
      (by decide) (by decide)).1 rfl)
  · exact ((claim_C2.1
      [{ filename := "minutes1.pdf", success := true, extractedText := some "t" },
       { filename := "minutes2.pdf", success := true, extractedText := some "u" }]
      [{ filename := "minutes1.pdf", success := true, attendees := some "Alice" },
       { filename := "minutes2.pdf", success := false, error := some "LLM failed" }] 0
      { filename := "minutes1.pdf", success := true, extractedText := some "t" }
      { filename := "minutes1.pdf", success := true, attendees := some "Alice" }
      (by decide) (by decide)).2 rfl)

/-- A pre-state with a previously accepted pending selection, used to
refute the cleared-selection part of claim C1. -/
def c1Prev : HomeState :=
  { app := { initialState with
      files := [{ name := "a.pdf", type := "application/pdf" }]
      results := [{ filename := "a.pdf", success := false, extractedText := some "" }] }
    selectedFiles := [{ name := "a.pdf", type := "application/pdf" }]
    errMsg := "" }

/-- Counterexample to C1 as stated: selecting a batch containing a non-PDF
file produces the validation error but does NOT clear the pending
selection — the previously selected files (component selection and shared
state) survive the rejected event. -/
theorem claim_C1_counterexample :
    (handleFileChange c1Prev
        [{ name := "b.txt", type := "text/plain" }]).errMsg =
      "Only PDF files are allowed" ∧
    (handleFileChange c1Prev
        [{ name := "b.txt", type := "text/plain" }]).selectedFiles ≠ [] ∧
    (handleFileChange c1Prev
        [{ name := "b.txt", type := "text/plain" }]).app.files ≠ [] := by
  decide

/-- C1 (amended): a selection event containing a non-PDF file sets only the
validation error, leaving every other component and shared-state field
(including the previously pending selection) unchanged and triggering no
orchestrator; and each client-side validation failure of a submit handler
(missing API key, empty selection, empty rubric, no valid text) returns
before any fetch is issued, changing nothing but the error message. -/
theorem claim_C1 :
    (∀ (h : HomeState) (evFiles : List FileMeta),
      (∃ f ∈ evFiles, f.type ≠ "application/pdf") →
      handleFileChange h evFiles =
        { h with errMsg := "Only PDF files are allowed" }) ∧
    (∀ (h : HomeState) (fr : FetchOutcome (List OcrEntry)), h.app.apiKey = "" →
      handleStep1Process h fr =
        { trace := [{ h with errMsg := "Please enter your API key" }]
          fetched := false, sentEntries := none }) ∧
    (∀ (h : HomeState) (fr : FetchOutcome (List OcrEntry)),
      h.app.apiKey ≠ "" → h.selectedFiles = [] →
      handleStep1Process h fr =
        { trace := [{ h with errMsg := "Please select at least one PDF file" }]
          fetched := false, sentEntries := none }) ∧
    (∀ (h : HomeState) (fr : FetchOutcome (List AttendeeEntry)), h.app.apiKey = "" →
      handleStep2Process h fr =
        { trace := [{ h with errMsg := "Please enter your API key" }]
          fetched := false, sentEntries := none }) ∧
    (∀ (h : HomeState) (fr : FetchOutcome (List VoteEntry)), h.app.apiKey = "" →
      handleStep3Process h fr =
        { trace := [{ h with errMsg := "Please enter your API key" }]
          fetched := false, sentEntries := none }) ∧
    (∀ (h : HomeState) (fr : FetchOutcome (List LawEntry)), h.app.apiKey = "" →
      handleAnalysisProcess h fr =
        { trace := [{ h with errMsg := "Please enter your API key" }]
          fetched := false, sentEntries := none }) ∧
    (∀ (h : HomeState) (fr : FetchOutcome (List LawEntry)),
      h.app.apiKey ≠ "" → h.app.rubric.trim = "" →
      handleAnalysisProcess h fr =
        { trace := [{ h with errMsg := "Please enter a rubric in Step 0" }]
          fetched := false, sentEntries := none }) ∧
    (∀ (h : HomeState) (fr : FetchOutcome (List LawEntry)),
      h.app.apiKey ≠ "" → h.app.rubric.trim ≠ "" →
      (h.app.results.filter fun r => r.success && strTruthy r.extractedText) = [] →
      handleAnalysisProcess h fr =
        { trace := [{ h with errMsg := "Please complete OCR processing first (Step 1)" }]
          fetched := false, sentEntries := none }) := by
  refine ⟨?_, ?_, ?_, ?_, ?_, ?_, ?_, ?_⟩
  · intro h evFiles hex
    have hne : (evFiles.filter fun f => f.type == "application/pdf").length ≠
        evFiles.length := by
      have hlt := (List.length_filter_lt_length_iff_exists
        (l := evFiles) (p := fun f => f.type == "application/pdf")).mpr
        (by obtain ⟨f, hf, hft⟩ := hex; exact ⟨f, hf, by simpa using hft⟩)
      omega
    unfold handleFileChange
    simp [hne]
  · intro h fr hk
    unfold handleStep1Process
    simp [hk]
  · intro h fr hk hsel
    unfold handleStep1Process
    simp [hk, hsel]
  · intro h fr hk
    unfold handleStep2Process
    simp [hk]
  · intro h fr hk
    unfold handleStep3Process
    simp [hk]
  · intro h fr hk
    unfold handleAnalysisProcess
    simp [hk]
  · intro h fr hk hr
    unfold handleAnalysisProcess
    simp [hk, hr]
  · intro h fr hk hr hv
    unfold handleAnalysisProcess
    simp [hk, hr, hv]

/-- Witness for the amended C1: the concrete rejected mixed selection only
sets the error message, and a stage-2 submit with an empty API key issues
no fetch. -/
theorem claim_C1_witness :
    handleFileChange c1Prev [{ name := "b.txt", type := "text/plain" }] =
      { c1Prev with errMsg := "Only PDF files are allowed" } ∧
    handleStep2Process
        { app := initialState, selectedFiles := [], errMsg := "" } (.ok []) =
      { trace := [{ app := initialState, selectedFiles := []
                    errMsg := "Please enter your API key" }]
        fetched := false, sentEntries := none } := by
  constructor
  · exact claim_C1.1 c1Prev [{ name := "b.txt", type := "text/plain" }]
      ⟨{ name := "b.txt", type := "text/plain" }, by decide, by decide⟩
  · exact claim_C1.2.2.2.1
      { app := initialState, selectedFiles := [], errMsg := "" } (.ok []) rfl

/-- The status an orchestrator invocation that passed validation ends at:
complete on a 2xx response, error on any thrown failure. -/
def expectedFinal {α : Type} : FetchOutcome α → StepStatus
  | .ok _ => .complete
  | .httpError _ => .error
  | .netError _ => .error

/-- `setResults` does not touch any stage status slice. -/
theorem stageStatus_setResults (s : AppState) (results : List PdfResult)
    (k : StageIdx) : stageStatus (setResults s results) k = stageStatus s k := by
  cases k <;> rfl

/-- `setFiles` does not touch any stage status slice. -/
theorem stageStatus_setFiles (s : AppState) (files : List FileMeta)
    (k : StageIdx) : stageStatus (setFiles s files) k = stageStatus s k := by
  cases k <;> rfl

/-- `setApiKey` does not touch any stage status slice. -/
theorem stageStatus_setApiKey (s : AppState) (key : String) (k : StageIdx) :
    stageStatus (setApiKey s key) k = stageStatus s k := by
  cases k <;> rfl

/-- `setRubric` touches only the step-0 status, not stages 1–3. -/
theorem stageStatus_setRubric (s : AppState) (v : String) (k : StageIdx) :
    stageStatus (setRubric s v) k = stageStatus s k := by
  cases k <;> rfl

/-- `setCurrentStep` does not touch any stage status slice. -/
theorem stageStatus_setCurrentStep (s : AppState) (n : Int) (k : StageIdx) :
    stageStatus (setCurrentStep s n) k = stageStatus s k := by
  unfold setCurrentStep
  split <;> cases k <;> rfl

/-- `setStepStatus` on a different stage leaves the slice unchanged. -/
theorem stageStatus_setStepStatus_ne (s : AppState) (j k : StageIdx)
    (st : StepStatus) (hjk : j ≠ k) :
    stageStatus (setStepStatus s j st) k = stageStatus s k := by
  cases j <;> cases k <;> first | exact absurd rfl hjk | rfl

/-- `setStepStatus` on the same stage writes exactly the given status. -/
theorem stageStatus_setStepStatus_eq (s : AppState) (k : StageIdx)
    (st : StepStatus) : stageStatus (setStepStatus s k st) k = st := by
  cases k <;> rfl

/-- The file-selection handler does not touch any stage status slice. -/
theorem stageStatus_handleFileChange (h : HomeState) (fs : List FileMeta)
    (k : StageIdx) :
    stageStatus (handleFileChange h fs).app k = stageStatus h.app k := by
  unfold handleFileChange
  dsimp only []
  split <;> cases k <;> simp [stageStatus, setResults, setFiles]

/-- The text-edit handler does not touch any stage status slice. -/
theorem stageStatus_handleTextEdit (h : HomeState) (filename value : String)
    (k : StageIdx) :
    stageStatus (handleTextEdit h filename value).app k = stageStatus h.app k := by
  unfold handleTextEdit
  cases k <;> simp [stageStatus, setResults]

/-- Any state reached during a non-clear event whose stage status slice is
idle had an idle slice already before the event: no handler other than the
global clear writes idle into a stage status. -/
theorem eventRun_status_idle (h : HomeState) (e : Event) (k : StageIdx)
    (x : HomeState) (hne : e ≠ .clear) (hx : x ∈ (eventRun h e).trace)
    (hidle : stageStatus x.app k = .idle) : stageStatus h.app k = .idle := by
  cases e with
  | clear => exact absurd rfl hne
  | fileChange fs =>
    simp [eventRun] at hx
    subst hx
    rwa [stageStatus_handleFileChange] at hidle
  | textEdit filename value =>
    simp [eventRun] at hx
    subst hx
    rwa [stageStatus_handleTextEdit] at hidle
  | rubricChange v =>
    simp [eventRun] at hx
    subst hx
    rwa [stageStatus_setRubric] at hidle
  | apiKeyChange key =>
    simp [eventRun] at hx
    subst hx
    rwa [stageStatus_setApiKey] at hidle
  | stepChange n =>
    simp [eventRun] at hx
    subst hx
    rwa [stageStatus_setCurrentStep] at hidle
  | step1 fr =>
    simp only [eventRun, handleStep1Process] at hx
    split at hx
    · simp at hx; subst hx; exact hidle
    · split at hx
      · simp at hx; subst hx; exact hidle
      · cases fr <;> simp at hx <;>
          rcases hx with rfl | rfl | rfl | rfl <;>
          cases k <;> simp_all [stageStatus, setStepStatus, setResults]
  | step2 fr =>
    simp only [eventRun, handleStep2Process] at hx
    split at hx
    · simp at hx; subst hx; exact hidle
    · cases fr <;> simp at hx <;>
        rcases hx with rfl | rfl | rfl | rfl <;>
        cases k <;> simp_all [stageStatus, setStepStatus, setResults]
  | step3 fr =>
    simp only [eventRun, handleStep3Process] at hx
    split at hx
    · simp at hx; subst hx; exact hidle
    · cases fr <;> simp at hx <;>
        rcases hx with rfl | rfl | rfl | rfl <;>
        cases k <;> simp_all [stageStatus, setStepStatus, setResults]
  | analyze fr =>
    simp only [eventRun, handleAnalysisProcess] at hx
    split at hx
    · simp at hx; subst hx; exact hidle
    · split at hx
      · simp at hx; subst hx; exact hidle
      · split at hx
        · simp at hx; subst hx; exact hidle
        · cases fr with
          | ok data =>
            simp at hx
            rcases hx with rfl | rfl | rfl | rfl <;>
              cases k <;> simp_all [stageStatus, setStepStatus, setResults]
          | httpError detail =>
            simp at hx
            rcases hx with rfl | rfl | rfl | rfl | rfl <;>
              cases k <;> simp_all [stageStatus, setStepStatus, setResults]
          | netError msg =>
            simp at hx
            rcases hx with rfl | rfl | rfl | rfl | rfl <;>
              cases k <;> simp_all [stageStatus, setStepStatus, setResults]

/-- A non-clear event that does not invoke the orchestrator of stage `k`
leaves the stage-`k` status slice unchanged in every state it produces. -/
theorem eventRun_status_frame (h : HomeState) (e : Event) (k : StageIdx)
    (x : HomeState) (hinv : invokesStage e ≠ some k) (hne : e ≠ .clear)
    (hx : x ∈ (eventRun h e).trace) :
    stageStatus x.app k = stageStatus h.app k := by
  cases e with
  | clear => exact absurd rfl hne
  | fileChange fs =>
    simp [eventRun] at hx
    subst hx
    exact stageStatus_handleFileChange h fs k
  | textEdit filename value =>
    simp [eventRun] at hx
    subst hx
    exact stageStatus_handleTextEdit h filename value k
  | rubricChange v =>
    simp [eventRun] at hx
    subst hx
    exact stageStatus_setRubric h.app v k
  | apiKeyChange key =>
    simp [eventRun] at hx
    subst hx
    exact stageStatus_setApiKey h.app key k
  | stepChange n =>
    simp [eventRun] at hx
    subst hx
    exact stageStatus_setCurrentStep h.app n k
  | step1 fr =>
    have hk : StageIdx.one ≠ k := by
      intro hcontra; exact hinv (by simp [invokesStage, hcontra])
    simp only [eventRun, handleStep1Process] at hx
    split at hx
    · simp at hx; subst hx; rfl
    · split at hx
      · simp at hx; subst hx; rfl
      · cases fr <;> simp at hx <;>
          rcases hx with rfl | rfl | rfl | rfl <;>
          simp [stageStatus_setStepStatus_ne _ _ _ _ hk, stageStatus_setResults]
  | step2 fr =>
    have hk : StageIdx.two ≠ k := by
      intro hcontra; exact hinv (by simp [invokesStage, hcontra])
    simp only [eventRun, handleStep2Process] at hx
    split at hx
    · simp at hx; subst hx; rfl
    · cases fr <;> simp at hx <;>
        rcases hx with rfl | rfl | rfl | rfl <;>
        simp [stageStatus_setStepStatus_ne _ _ _ _ hk, stageStatus_setResults]
  | step3 fr =>
    have hk : StageIdx.three ≠ k := by
      intro hcontra; exact hinv (by simp [invokesStage, hcontra])
    simp only [eventRun, handleStep3Process] at hx
    split at hx
    · simp at hx; subst hx; rfl
    · cases fr <;> simp at hx <;>
        rcases hx with rfl | rfl | rfl | rfl <;>
        simp [stageStatus_setStepStatus_ne _ _ _ _ hk, stageStatus_setResults]
  | analyze fr =>
    have hk : StageIdx.two ≠ k := by
      intro hcontra; exact hinv (by simp [invokesStage, hcontra])
    simp only [eventRun, handleAnalysisProcess] at hx
    split at hx
    · simp at hx; subst hx; rfl
    · split at hx
      · simp at hx; subst hx; rfl
      · split at hx
        · simp at hx; subst hx; rfl
        · cases fr with
          | ok data =>
            simp at hx
            rcases hx with rfl | rfl | rfl | rfl <;>
              simp [stageStatus_setStepStatus_ne _ _ _ _ hk, stageStatus_setResults]
          | httpError detail =>
            simp at hx
            rcases hx with rfl | rfl | rfl | rfl | rfl <;>
              simp [stageStatus_setStepStatus_ne _ _ _ _ hk, stageStatus_setResults]
          | netError msg =>
            simp at hx
            rcases hx with rfl | rfl | rfl | rfl | rfl <;>
              simp [stageStatus_setStepStatus_ne _ _ _ _ hk, stageStatus_setResults]

/-- C3: every orchestrator invocation that passes client-side validation
first sets its stage status to processing (first mutation, nothing else
changed), and ends at complete exactly when the fetch succeeded and the
merge ran, at error exactly when the call threw; no event other than the
global clear ever writes idle into a stage status, and events that do not
invoke the orchestrator of a stage leave that stage status untouched, so a
completed stage stays complete until its next invocation or a clear. -/
theorem claim_C3 :
    (∀ (h : HomeState) (fr : FetchOutcome (List OcrEntry)),
      h.app.apiKey ≠ "" → h.selectedFiles ≠ [] →
      (handleStep1Process h fr).trace.head? =
        some { h with app := setStepStatus h.app .one .processing } ∧
      ((handleStep1Process h fr).final h).app.step1Status = expectedFinal fr) ∧
    (∀ (h : HomeState) (fr : FetchOutcome (List AttendeeEntry)),
      h.app.apiKey ≠ "" →
      (handleStep2Process h fr).trace.head? =
        some { h with app := setStepStatus h.app .two .processing } ∧
      ((handleStep2Process h fr).final h).app.step2Status = expectedFinal fr) ∧
    (∀ (h : HomeState) (fr : FetchOutcome (List VoteEntry)),
      h.app.apiKey ≠ "" →
      (handleStep3Process h fr).trace.head? =
        some { h with app := setStepStatus h.app .three .processing } ∧
      ((handleStep3Process h fr).final h).app.step3Status = expectedFinal fr) ∧
    (∀ (h : HomeState) (fr : FetchOutcome (List LawEntry)),
      h.app.apiKey ≠ "" → h.app.rubric.trim ≠ "" →
      (h.app.results.filter fun r => r.success && strTruthy r.extractedText) ≠ [] →
      (handleAnalysisProcess h fr).trace.head? =
        some { h with app := setStepStatus h.app .two .processing } ∧
      ((handleAnalysisProcess h fr).final h).app.step2Status = expectedFinal fr) ∧
    (∀ (h : HomeState) (e : Event) (k : StageIdx) (x : HomeState),
      e ≠ .clear → x ∈ (eventRun h e).trace →
      stageStatus x.app k = .idle → stageStatus h.app k = .idle) ∧
    (∀ (h : HomeState) (e : Event) (k : StageIdx) (x : HomeState),
      invokesStage e ≠ some k → e ≠ .clear → x ∈ (eventRun h e).trace →
      stageStatus x.app k = stageStatus h.app k) := by
  refine ⟨?_, ?_, ?_, ?_, eventRun_status_idle, eventRun_status_frame⟩
  · intro h fr hk hsel
    have hk' : ¬(h.app.apiKey == "") = true := by simpa using hk
    have hsel' : ¬(h.selectedFiles.length == 0) = true := by
      simp only [beq_iff_eq, List.length_eq_zero]
      exact hsel
    cases fr <;>
      · unfold handleStep1Process
        rw [if_neg hk', if_neg hsel']
        exact ⟨rfl, rfl⟩
  · intro h fr hk
    have hk' : ¬(h.app.apiKey == "") = true := by simpa using hk
    cases fr <;>
      · unfold handleStep2Process
        rw [if_neg hk']
        exact ⟨rfl, rfl⟩
  · intro h fr hk
    have hk' : ¬(h.app.apiKey == "") = true := by simpa using hk
    cases fr <;>
      · unfold handleStep3Process
        rw [if_neg hk']
        exact ⟨rfl, rfl⟩
  · intro h fr hk hr hv
    have hk' : ¬(h.app.apiKey == "") = true := by simpa using hk
    have hr' : ¬(h.app.rubric.trim == "") = true := by simpa using hr
    have hv' : ¬((h.app.results.filter fun r =>
        r.success && strTruthy r.extractedText).length == 0) = true := by
      simp only [beq_iff_eq, List.length_eq_zero]
      exact hv
    cases fr <;>
      · unfold handleAnalysisProcess
        rw [if_neg hk', if_neg hr', if_neg hv']
        exact ⟨rfl, rfl⟩

/-- Pre-state for the C3 witness: api key present, statuses idle. -/
def c3h : HomeState :=
  { app := { initialState with apiKey := "k" }, selectedFiles := [], errMsg := "" }

/-- Witness for C3: a concrete failed stage-2 invocation starts at
processing and ends at error, and a concrete non-clear event cannot have
produced an idle stage-1 status unless it was already idle. -/
theorem claim_C3_witness :
    (handleStep2Process c3h (.httpError none)).trace.head? =
      some { c3h with app := setStepStatus c3h.app .two .processing } ∧
    ((handleStep2Process c3h (.httpError none)).final c3h).app.step2Status =
      .error ∧
    stageStatus
      ({ app := initialState, selectedFiles := [], errMsg := "" } : HomeState).app
      .one = .idle := by
  refine ⟨?_, ?_, ?_⟩
  · exact (claim_C3.2.1 c3h (.httpError none) (by decide)).1
  · exact (claim_C3.2.1 c3h (.httpError none) (by decide)).2
  · exact claim_C3.2.2.2.2.1
      { app := initialState, selectedFiles := [], errMsg := "" }
      (.step2 (.ok [])) .one
      { app := initialState, selectedFiles := []
        errMsg := "Please enter your API key" }
      (by decide) (by decide) (by decide)

end VoteTracking
